import Mathlib

/-!
Verification development for the genai-model-evaluator repository.

This file gives a shallow embedding, in Lean 4, of the evaluation-pipeline
core of the repository (`pricing_calculator.py`, `evaluation_steps.py`,
`orchestrator.py`, `orchestration_helper.py`) and proves properties of the
embedded code.

Modelling conventions:
* Python `int` values are embedded as `Int`, token counts as `Int`,
  string lengths as `Nat`.
* Python `float` values are embedded as exact rationals (`ℚ`); the float
  literals of the source (price tables) are decimal and carried exactly,
  and `round(x, n)` is embedded as round-half-even to `n` decimal digits
  on `ℚ` (the idealisation of the source arithmetic: no binary
  floating-point error is modelled).
* Fallible Python code (`int(...)` raising `ValueError`, division raising
  `ZeroDivisionError`) is embedded with `Option` / `Except`.
* Network calls (Bedrock model invocations) are external effects: their
  results are supplied by an environment record, and the embedded control
  flow threads them exactly as the source does.  Report writing, chart
  plotting and pandas display calls are external output-only effects and
  produce no value used by the embedded logic, so they have no embedded
  counterpart.
* Strings are processed as `List Char`, matching Python's per-character
  string semantics (ASCII subset; the identifiers and tags appearing in
  the source are all ASCII).
-/

/-! ### Python string/int primitives -/

/-- The whitespace characters stripped by Python `str.strip()` (ASCII subset:
space, tab, newline, carriage return, vertical tab, form feed). -/
def pyIsSpace (c : Char) : Bool :=
  c = ' ' || c = '\t' || c = '\n' || c = '\r' || c = '\x0b' || c = '\x0c'

/-- Python `str.strip()` on a character list: remove leading and trailing
whitespace. -/
def pyStripList (s : List Char) : List Char :=
  ((s.dropWhile pyIsSpace).reverse.dropWhile pyIsSpace).reverse

/-- Python `str.strip()` on a string. -/
def pyStrip (s : String) : String :=
  String.mk (pyStripList s.data)

/-- Digit-run parser for Python `int(str)`: a nonempty run of ASCII digits in
which single underscores may appear between digits (Python permits
`int("1_0") = 10` but rejects leading, trailing or doubled underscores).
`acc` is the value of the digits already consumed. -/
def pyDigits (acc : Nat) : List Char → Option Nat
  | [] => some acc
  | '_' :: c :: cs =>
      if c.isDigit then pyDigits (acc * 10 + (c.toNat - 48)) cs else none
  | ['_'] => none
  | c :: cs =>
      if c.isDigit then pyDigits (acc * 10 + (c.toNat - 48)) cs else none

/-- Python `int(s)` for a decimal string: strip surrounding whitespace, allow
one optional sign, then require a digit run (`pyDigits`).  `none` models
`ValueError`.  (ASCII model: the Unicode digits Python would also accept do
not occur in this pipeline.) -/
def pyInt (s : String) : Option Int :=
  match pyStripList s.data with
  | '+' :: c :: cs =>
      if c.isDigit then (pyDigits (c.toNat - 48) cs).map Int.ofNat else none
  | '-' :: c :: cs =>
      if c.isDigit then (pyDigits (c.toNat - 48) cs).map (fun n => -(n : Int))
      else none
  | c :: cs =>
      if c.isDigit then (pyDigits (c.toNat - 48) cs).map Int.ofNat else none
  | [] => none

/-- Python substring containment `needle in hay` on character lists. -/
def strIn (needle : List Char) : List Char → Bool
  | [] => needle.isEmpty
  | c :: rest => needle.isPrefixOf (c :: rest) || strIn needle rest

/-- Python substring containment `needle in hay` for strings. -/
def containsStr (hay needle : String) : Bool :=
  strIn needle.data hay.data

/-! ### Python `round` on exact rationals -/

/-- Round-half-even to the nearest integer, the tie-breaking rule of Python
`round`. -/
def roundHalfEven (q : ℚ) : ℤ :=
  if q - ⌊q⌋ < 1 / 2 then ⌊q⌋
  else if 1 / 2 < q - ⌊q⌋ then ⌊q⌋ + 1
  else if ⌊q⌋ % 2 = 0 then ⌊q⌋ else ⌊q⌋ + 1

/-- Python `round(q, nd)`: round to the closest multiple of `10 ^ (-nd)`,
ties to the even multiple. -/
def pyRound (q : ℚ) (nd : ℕ) : ℚ :=
  (roundHalfEven (q * 10 ^ nd) : ℚ) / 10 ^ nd

/-! ### `pricing_calculator.py` -/

/-- The per-1000-input-token price table of `calculate_input_price`
(`pricing_calculator.py`), with the float literals carried as exact
rationals. -/
def model_input_token_prices : List (String × ℚ) :=
  [("amazon.titan-text-lite-v1", 0.0003),
   ("amazon.titan-text-express-v1", 0.0075),
   ("ai21.j2-mid-v1", 0.0125),
   ("ai21.j2-ultra-v1", 0.0188),
   ("anthropic.claude-instant-v1", 0.00080),
   ("anthropic.claude-v2", 0.00800),
   ("anthropic.claude-v2:1", 0.00800),
   ("anthropic.claude-3-sonnet-20240229-v1:0", 0.00300),
   ("anthropic.claude-3-haiku-20240307-v1:0", 0.0002500),
   ("cohere.command-text-v14", 0.0015),
   ("cohere.command-light-text-v14", 0.0003),
   ("meta.llama2-13b-chat-v1", 0.00075),
   ("meta.llama2-70b-chat-v1", 0.00195),
   ("meta.llama3-8b-instruct-v1:0", 0.0004),
   ("meta.llama3-70b-instruct-v1:0", 0.00265),
   ("mistral.mistral-large-2402-v1:0", 0.008),
   ("mistral.mistral-7b-instruct-v0:2", 0.00015),
   ("mistral.mixtral-8x7b-instruct-v0:1", 0.00045),
   ("gpt-4-0125-preview", 0.01),
   ("gpt-4-32k", 0.06)]

/-- The per-1000-output-token price table of `calculate_output_price`
(`pricing_calculator.py`). -/
def model_output_token_prices : List (String × ℚ) :=
  [("amazon.titan-text-lite-v1", 0.0004),
   ("amazon.titan-text-express-v1", 0.0016),
   ("ai21.j2-mid-v1", 0.0125),
   ("ai21.j2-ultra-v1", 0.0188),
   ("anthropic.claude-instant-v1", 0.00240),
   ("anthropic.claude-v2", 0.02400),
   ("anthropic.claude-v2:1", 0.02400),
   ("anthropic.claude-3-sonnet-20240229-v1:0", 0.01500),
   ("anthropic.claude-3-haiku-20240307-v1:0", 0.0012500),
   ("cohere.command-text-v14", 0.00200),
   ("cohere.command-light-text-v14", 0.00060),
   ("meta.llama2-13b-chat-v1", 0.00100),
   ("meta.llama2-70b-chat-v1", 0.00256),
   ("meta.llama3-8b-instruct-v1:0", 0.0006),
   ("meta.llama3-70b-instruct-v1:0", 0.0035),
   ("mistral.mistral-large-2402-v1:0", 0.024),
   ("mistral.mistral-7b-instruct-v0:2", 0.00020),
   ("mistral.mixtral-8x7b-instruct-v0:1", 0.00070),
   ("gpt-4-0125-preview", 0.03),
   ("gpt-4-32k", 0.12)]

/-- `calculate_input_price(token_number, model_id)` from
`pricing_calculator.py`: if the model is in the table,
`round(token_number / 1000 * price_per_1000_tokens, 8)`, else the literal
`0`. -/
def calculate_input_price (token_number : ℤ) (model_id : String) : ℚ :=
  match model_input_token_prices.lookup model_id with
  | some price_per_1000_tokens =>
      pyRound ((token_number : ℚ) / 1000 * price_per_1000_tokens) 8
  | none => 0

/-- `calculate_output_price(token_number, model_id)` from
`pricing_calculator.py`. -/
def calculate_output_price (token_number : ℤ) (model_id : String) : ℚ :=
  match model_output_token_prices.lookup model_id with
  | some price_per_1000_tokens =>
      pyRound ((token_number : ℚ) / 1000 * price_per_1000_tokens) 8
  | none => 0

/-- `calculate_total_price(input_tokens, output_tokens, model)` from
`pricing_calculator.py`: the pair of per-direction costs, the 6-decimal
rounded total, and the 6-decimal rounded total per 1000 invocations. -/
def calculate_total_price (input_tokens output_tokens : ℤ) (model : String) :
    ℚ × ℚ × ℚ × ℚ :=
  let input_cost := calculate_input_price input_tokens model
  let output_cost := calculate_output_price output_tokens model
  let total_cost := pyRound (input_cost + output_cost) 6
  let total_cost_1000 := pyRound (total_cost * 1000) 6
  (input_cost, output_cost, total_cost, total_cost_1000)

/-- The input rate the specification's pricing formula uses: the table entry,
or 0 for an unknown model identifier.  (Spec wording, for comparison with
`calculate_input_price`.) -/
def specInputRate (model_id : String) : ℚ :=
  (model_input_token_prices.lookup model_id).getD 0

/-- The output rate the specification's pricing formula uses. -/
def specOutputRate (model_id : String) : ℚ :=
  (model_output_token_prices.lookup model_id).getD 0

/-! ### `parse_xml` from `evaluation_steps.py`

The source extracts tag content with
`re.findall(f'<{tag}>(?:<[^/]*?>.*?</[^>]*?>|[^<]*?)+</{tag}>', xml, re.DOTALL)`
and then strips the outermost pair from each match with
`re.sub(f'^<{tag}>|</{tag}>$', '', match)`, joining the cleaned matches
with a single space and stripping the result.

The embedding below is a backtracking matcher specialised to that fixed
pattern shape, following CPython `re` semantics: alternation is ordered
(left branch preferred), `*?` is lazy (shortest first), `(?:...)+` is
greedy (more iterations preferred) with CPython's zero-width protection
(an iteration that consumes nothing ends the repetition and control moves
to the pattern tail).  Matching is continuation-passing: a continuation
receives the position after the sub-pattern and returns the end position
of the whole match, or `none`; `Option.orElse`-style sequencing realises
the backtracking priority order.  Fuel arguments only bound recursion
depth: they are instantiated so large (string length plus two) that they
never cut off a genuine match. -/

/-- Match the literal `lit` at position `i` of `xml`; on success return the
position just after it. -/
def litAt (xml lit : List Char) (i : ℕ) : Option ℕ :=
  if lit.isPrefixOf (xml.drop i) then some (i + lit.length) else none

/-- Lazy star `p*?` at position `i`: first try the continuation `k` at `i`
(shortest match), else consume one character satisfying `p` and repeat. -/
def lazyStar (xml : List Char) (p : Char → Bool) :
    ℕ → ℕ → (ℕ → Option ℕ) → Option ℕ
  | 0, _, _ => none
  | fuel + 1, i, k =>
    match k i with
    | some e => some e
    | none =>
      match xml[i]? with
      | some c => if p c then lazyStar xml p fuel (i + 1) k else none
      | none => none

/-- First alternative of the repeated group: `<[^/]*?>.*?</[^>]*?>`
(a nested differently-named tag pair), in continuation style.  `lf` is the
fuel handed to each lazy star. -/
def nestedTagAlt (xml : List Char) (lf : ℕ) (i : ℕ) (k : ℕ → Option ℕ) :
    Option ℕ :=
  match litAt xml ['<'] i with
  | none => none
  | some i1 =>
    lazyStar xml (fun c => c != '/') lf i1 (fun i2 =>
      match litAt xml ['>'] i2 with
      | none => none
      | some i3 =>
        lazyStar xml (fun _ => true) lf i3 (fun i4 =>
          match litAt xml ['<', '/'] i4 with
          | none => none
          | some i5 =>
            lazyStar xml (fun c => c != '>') lf i5 (fun i6 =>
              match litAt xml ['>'] i6 with
              | none => none
              | some i7 => k i7)))

/-- Greedy `(A|B)+` for the two alternatives of the source pattern
(`A` = `nestedTagAlt`, `B` = `[^<]*?`), with CPython's zero-width
protection: after an iteration that consumed nothing the repetition stops
and only the tail `k` runs. -/
def repPlus (xml : List Char) (lf : ℕ) (k : ℕ → Option ℕ) :
    ℕ → ℕ → Option ℕ
  | 0, _ => none
  | fuel + 1, i =>
    let cont : ℕ → Option ℕ := fun j =>
      if j = i then k j
      else
        match repPlus xml lf k fuel j with
        | some e => some e
        | none => k j
    match nestedTagAlt xml lf i cont with
    | some e => some e
    | none => lazyStar xml (fun c => c != '<') lf i cont

/-- Match the whole pattern `<tag>(?:...)+</tag>` at position `i`, returning
the end position of the match. -/
def matchTagAt (xml tag : List Char) (i : ℕ) : Option ℕ :=
  let lf := xml.length + 1
  match litAt xml ('<' :: tag ++ ['>']) i with
  | none => none
  | some i1 =>
    repPlus xml lf (fun j => litAt xml ('<' :: '/' :: tag ++ ['>']) j)
      (xml.length + 1) i1

/-- `re.findall` scan: try the pattern at each position left to right; after
a match, resume at its end.  Returns the (start, end) spans of the
non-overlapping matches. -/
def findTagMatches (xml tag : List Char) : ℕ → ℕ → List (ℕ × ℕ)
  | 0, _ => []
  | fuel + 1, i =>
    if i ≤ xml.length then
      match matchTagAt xml tag i with
      | some e => (i, e) :: findTagMatches xml tag fuel (if i < e then e else i + 1)
      | none => findTagMatches xml tag fuel (i + 1)
    else []

/-- The source's `re.sub(f'^<{tag}>|</{tag}>$', '', match)` applied to a
match of the pattern: remove one leading `<tag>` and one trailing
`</tag>` if present.  (Every string this is applied to is a full pattern
match, which begins with the open tag and ends with the close tag and in
particular has no trailing newline, so anchored-sub and
strip-affixes agree on all its inputs.) -/
def stripOuterTag (tag m : List Char) : List Char :=
  let opening : List Char := '<' :: tag ++ ['>']
  let closing : List Char := '<' :: '/' :: tag ++ ['>']
  let m1 := if opening.isPrefixOf m then m.drop opening.length else m
  if closing.isSuffixOf m1 then m1.take (m1.length - closing.length) else m1

/-- `" ".join(...)` on character lists. -/
def joinSpace : List (List Char) → List Char
  | [] => []
  | [x] => x
  | x :: y :: rest => x ++ ' ' :: joinSpace (y :: rest)

/-- `parse_xml(xml, tag)` from `evaluation_steps.py`: find all pattern
matches, strip the outermost tag pair from each, join with single spaces
and strip; return `""` when there is no match.  The function is total, so
the source's `except re.error` guard (reachable only for a tag containing
regex metacharacters, which no caller passes) has no counterpart. -/
def parse_xml (xml tag : String) : String :=
  let x := xml.data
  let t := tag.data
  match findTagMatches x t (x.length + 2) 0 with
  | [] => ""
  | ms =>
    String.mk (pyStripList (joinSpace (ms.map fun se =>
      stripOuterTag t ((x.drop se.1).take (se.2 - se.1)))))

/-! ### `evaluate_model_output_orchestrator` from `evaluation_steps.py`

The nine grading helpers (`eval_model_accuracy`, `eval_model_completeness`,
`eval_model_flow`, `eval_model_structure`, `eval_model_conciseness`,
`eval_model_clarity`, `eval_model_objectivity`, `eval_model_tone`,
`eval_model_task`) each build dimension-specific prompts, issue one network
request to the judge model, and return
`model_execution`'s parse of the judge's raw reply text.  The judge replies
are the only external inputs, so the embedding collects them in
`NineReplies`; everything the source computes from them is embedded
exactly.  `asyncio.gather` returns the nine results in argument order
regardless of completion order, so the embedded orchestrator is a plain
function of the nine replies. -/

/-- The raw judge reply texts for the nine grading calls of one evaluation,
one per dimension. -/
structure NineReplies where
  accuracyReply : String
  completenessReply : String
  flowReply : String
  structureReply : String
  concisenessReply : String
  clarityReply : String
  objectivityReply : String
  toneReply : String
  taskReply : String
deriving DecidableEq

/-- The parsing tail of `model_execution` (`evaluation_steps.py`): from the
judge's reply text, `parse_xml(text, "score").strip()` and
`parse_xml(text, "thoughts").strip()`. -/
def model_execution (output_text : String) : String × String :=
  (pyStrip (parse_xml output_text "score"),
   pyStrip (parse_xml output_text "thoughts"))

/-- The `final_score_rubric` dictionary literal of
`evaluate_model_output_orchestrator`, as an ordered key-value list. -/
def final_score_rubric (model_name : String) (r : NineReplies) :
    List (String × String) :=
  [("model_name", model_name),
   ("model_completeness_score", (model_execution r.completenessReply).1),
   ("model_accuracy_score", (model_execution r.accuracyReply).1),
   ("model_flow_score", (model_execution r.flowReply).1),
   ("model_structure_score", (model_execution r.structureReply).1),
   ("model_conciseness_score", (model_execution r.concisenessReply).1),
   ("model_clarity_score", (model_execution r.clarityReply).1),
   ("model_objectivity_score", (model_execution r.objectivityReply).1),
   ("model_tone_score", (model_execution r.toneReply).1),
   ("model_task_score", (model_execution r.taskReply).1)]

/-- A 69-dash divider line of the `final_summary` template. -/
def divider : String := String.mk (List.replicate 69 '-')

/-- The 156-dash closing divider line of the `final_summary` template. -/
def longDivider : String := String.mk (List.replicate 156 '-')

/-- The `final_summary` f-string of `evaluate_model_output_orchestrator`,
with each interpolation replaced by concatenation. -/
def final_summary_text (model_summary : String) (r : NineReplies) : String :=
  let acc := model_execution r.accuracyReply
  let comp := model_execution r.completenessReply
  let flow := model_execution r.flowReply
  let struc := model_execution r.structureReply
  let conc := model_execution r.concisenessReply
  let clar := model_execution r.clarityReply
  let obj := model_execution r.objectivityReply
  let tone := model_execution r.toneReply
  let tsk := model_execution r.taskReply
  "\nFull Summary:\n" ++ model_summary ++ "\n" ++ divider ++
  "\n\nModel Completeness: \nScore: " ++ comp.1 ++ "\nSummary: " ++ comp.2 ++
  "\n" ++ divider ++
  "\n\nModel Accuracy: \nScore: " ++ acc.1 ++ "\nSummary: " ++ acc.2 ++
  "\n" ++ divider ++
  "\n\nModel Flow Summary: \nScore: " ++ flow.1 ++ "\nSummary: " ++ flow.2 ++
  "\n" ++ divider ++
  "\n\nModel Structure: \nScore: " ++ struc.1 ++ "\nSummary: " ++ struc.2 ++
  "\n" ++ divider ++
  "\n\nModel Conciseness: \nScore: " ++ conc.1 ++ "\nSummary: " ++ conc.2 ++
  "\n" ++ divider ++
  "\n\nModel Clarity Summary: \nScore: " ++ clar.1 ++ "\nSummary: " ++ clar.2 ++
  "\n" ++ divider ++
  "\n\nModel Objectivity:\nScore: " ++ obj.1 ++ "\nSummary: " ++ obj.2 ++
  "\n\n" ++ divider ++
  "\n\nModel Tone:\nScore: " ++ tone.1 ++ "\nSummary: " ++ tone.2 ++
  "\n" ++ divider ++
  "\n\nModel Task:\nScore: " ++ tsk.1 ++ "\nSummary: " ++ tsk.2 ++
  "\n" ++ longDivider ++ "\n    "

/-- `evaluate_model_output_orchestrator` from `evaluation_steps.py`: parse
the nine judge replies, build the score rubric, convert each score string
with `int(...)` (left to right in the source's `final_score` expression;
`none` models the `ValueError` that aborts the call), and return
`(final_score, final_summary, final_score_rubric)` with
`final_score = (sum of the nine ints) / 9.0`. -/
def evaluate_model_output_orchestrator
    (source_text_data model_name model_summary task
      dynamic_evaluation_criteria scale : String) (r : NineReplies) :
    Option (ℚ × String × List (String × String)) :=
  (pyInt (model_execution r.completenessReply).1).bind fun c =>
  (pyInt (model_execution r.accuracyReply).1).bind fun a =>
  (pyInt (model_execution r.flowReply).1).bind fun f =>
  (pyInt (model_execution r.structureReply).1).bind fun st =>
  (pyInt (model_execution r.concisenessReply).1).bind fun cs =>
  (pyInt (model_execution r.clarityReply).1).bind fun cl =>
  (pyInt (model_execution r.objectivityReply).1).bind fun ob =>
  (pyInt (model_execution r.toneReply).1).bind fun tn =>
  (pyInt (model_execution r.taskReply).1).bind fun tk =>
  some ((((c + a + f + st + cs + cl + ob + tn + tk : ℤ) : ℚ)) / 9,
        final_summary_text model_summary r,
        final_score_rubric model_name r)

/-! ### `final_evaluator` from `orchestrator.py`

External effects are supplied by a `RunEnv`: the judge's raw reply to the
dynamic-rubric request, and, for each (model, vendor family) invocation,
the vendor adapter's returned summary and token counts
(`text_extractor_and_summarizer.py` adapters are declared external
request/response mappers), the wall-clock `time_length` measured around
that call (already `round(end - start, 2)`-ed, hence any rational), and
the judge replies for the nine grading calls.  PDF text extraction is
external, so the extracted `input_text_data` is a parameter.  The pandas
display, CSV/report writing, chart plotting and the final
`evaluate_model_performance` narrative call consume the results without
feeding back into them and are not modelled.  The embedding additionally
records an event trace (rubric generation, vendor invocations, evaluation
calls) in source execution order, to state ordering properties. -/

/-- The six vendor adapter families dispatched in `final_evaluator`, in the
order of the source's `if` chain. -/
inductive Family where
  | anthropic
  | mistral
  | meta
  | cohere
  | amazon
  | ai21
deriving DecidableEq

/-- The substring each family's `if` tests for (`"anthropic" in model`,
etc.). -/
def familyTag : Family → String
  | .anthropic => "anthropic"
  | .mistral => "mistral"
  | .meta => "meta"
  | .cohere => "cohere"
  | .amazon => "amazon"
  | .ai21 => "ai21"

/-- The source order of the family `if` blocks in `final_evaluator`. -/
def familyOrder : List Family :=
  [.anthropic, .mistral, .meta, .cohere, .amazon, .ai21]

/-- The externally observed outcome of one vendor invocation: the adapter's
`(summary, input tokens, output tokens)`, the measured rounded wall-clock
time, and the judge replies for the nine grading calls of this model's
evaluation. -/
structure InvokeOutcome where
  summary_invoke_response : String
  input_token_count : ℤ
  output_token_count : ℤ
  time_length : ℚ
  graders : NineReplies

/-- The environment of external effects for one run. -/
structure RunEnv where
  dyn_response : String → String
  invoke : String → Family → InvokeOutcome

/-- Events of the embedded run, in source execution order. -/
inductive RunEvent where
  | dynRubric (task : String)
  | invoke (fam : Family) (model : String)
  | evalCall (model : String) (criteria scale : String)
deriving DecidableEq

/-- The exceptions that can abort `final_evaluator`: `ZeroDivisionError`
from `character_count / time_length`, and `ValueError` from the `int(...)`
conversions in the aggregate-score computation. -/
inductive RunError where
  | zeroDivisionError
  | valueError
deriving DecidableEq

/-- One result-row dictionary as built by `OrchestrationHelper.format()`
(`orchestration_helper.py`). -/
structure RunRow where
  model : String
  time_length : ℚ
  character_count : ℕ
  char_process_time : ℚ
  input_cost : ℚ
  output_cost : ℚ
  total_cost : ℚ
  total_cost_1000 : ℚ
  final_score : ℚ
  summary_invoke_response : String

/-- `OrchestrationHelper.evaluation_results()` (`orchestration_helper.py`),
the per-model narrative fragment appended to `evaluation_results`. -/
def evaluation_results_text (model final_summary : String) : String :=
  "\n                    The final summary for " ++ model ++
  " is:\n\n                    " ++ final_summary ++ "\n                    "

/-- `dynamic_grading_criteria(task)` from `evaluation_steps.py`: one
blocking judge call (reply supplied by the environment), then
`parse_xml(response, "evaluation_criteria").strip()` and
`parse_xml(response, "evaluation_grading").strip()`. -/
def dynamic_grading_criteria (env : RunEnv) (task : String) :
    String × String :=
  let response := env.dyn_response task
  (pyStrip (parse_xml response "evaluation_criteria"),
   pyStrip (parse_xml response "evaluation_grading"))

/-- The result accumulated by the model loop: the result rows
(`results_list`), the concatenated `evaluation_results` narrative, and the
per-model score rubrics (`score_rubric_list`). -/
abbrev LoopResult := List RunRow × String × List (List (String × String))

/-- The body shared by every family `if` block of `final_evaluator`:
invoke the adapter, compute `char_process_time = character_count /
time_length` (a zero `time_length` raises `ZeroDivisionError` — the
division is unguarded in the source), price the call, run the evaluation
orchestrator, and package one row, one narrative fragment and one rubric.
The event list records the network calls the block issues. -/
def family_branch (env : RunEnv) (input_text_data prompt
    dynamic_evaluation_criteria dynamic_grading_scale model : String)
    (fam : Family) :
    List RunEvent × Except RunError (RunRow × String × List (String × String)) :=
  let o := env.invoke model fam
  let character_count := input_text_data.length
  if o.time_length = 0 then
    ([.invoke fam model], .error .zeroDivisionError)
  else
    let char_process_time := (character_count : ℚ) / o.time_length
    let p := calculate_total_price o.input_token_count o.output_token_count model
    match evaluate_model_output_orchestrator input_text_data model
        o.summary_invoke_response prompt dynamic_evaluation_criteria
        dynamic_grading_scale o.graders with
    | none =>
        ([.invoke fam model,
          .evalCall model dynamic_evaluation_criteria dynamic_grading_scale],
         .error .valueError)
    | some (final_score, final_summary, final_score_rubric) =>
        ([.invoke fam model,
          .evalCall model dynamic_evaluation_criteria dynamic_grading_scale],
         .ok ({ model := model
                time_length := o.time_length
                character_count := character_count
                char_process_time := char_process_time
                input_cost := p.1
                output_cost := p.2.1
                total_cost := p.2.2.1
                total_cost_1000 := p.2.2.2
                final_score := final_score
                summary_invoke_response := o.summary_invoke_response },
              evaluation_results_text model final_summary,
              final_score_rubric))

/-- The sequence of family `if` blocks for one model: every family whose
tag is a substring of the model identifier runs its block (the source's
`if`s are independent, not `elif`s), in source order; an exception aborts
the remaining blocks. -/
def families_loop (env : RunEnv) (input_text_data prompt
    dynamic_evaluation_criteria dynamic_grading_scale model : String) :
    List Family → List RunEvent × Except RunError LoopResult
  | [] => ([], .ok ([], "", []))
  | fam :: rest =>
    if containsStr model (familyTag fam) then
      match family_branch env input_text_data prompt
          dynamic_evaluation_criteria dynamic_grading_scale model fam with
      | (evs, .error e) => (evs, .error e)
      | (evs, .ok (row, txt, rubric)) =>
        match families_loop env input_text_data prompt
            dynamic_evaluation_criteria dynamic_grading_scale model rest with
        | (evs2, .error e) => (evs ++ evs2, .error e)
        | (evs2, .ok (rows, txts, rubrics)) =>
          (evs ++ evs2, .ok (row :: rows, txt ++ txts, rubric :: rubrics))
    else
      families_loop env input_text_data prompt dynamic_evaluation_criteria
        dynamic_grading_scale model rest

/-- One iteration of `final_evaluator`'s model loop: the
`"stability" in model or "embed" in model` guard `continue`s (nothing
runs, nothing is appended), otherwise the family blocks run. -/
def model_step (env : RunEnv) (input_text_data prompt
    dynamic_evaluation_criteria dynamic_grading_scale model : String) :
    List RunEvent × Except RunError LoopResult :=
  if containsStr model "stability" || containsStr model "embed" then
    ([], .ok ([], "", []))
  else
    families_loop env input_text_data prompt dynamic_evaluation_criteria
      dynamic_grading_scale model familyOrder

/-- The model loop of `final_evaluator` over the input model list, with the
accumulating lists appended in loop order and an exception aborting the
remaining iterations. -/
def models_loop (env : RunEnv) (input_text_data prompt
    dynamic_evaluation_criteria dynamic_grading_scale : String) :
    List String → List RunEvent × Except RunError LoopResult
  | [] => ([], .ok ([], "", []))
  | model :: rest =>
    match model_step env input_text_data prompt dynamic_evaluation_criteria
        dynamic_grading_scale model with
    | (evs, .error e) => (evs, .error e)
    | (evs, .ok (rows, txt, rubrics)) =>
      match models_loop env input_text_data prompt
          dynamic_evaluation_criteria dynamic_grading_scale rest with
      | (evs2, .error e) => (evs ++ evs2, .error e)
      | (evs2, .ok (rows2, txt2, rubrics2)) =>
        (evs ++ evs2, .ok (rows ++ rows2, txt ++ txt2, rubrics ++ rubrics2))

/-- `final_evaluator(pdf_path, models, task_prompt, max_tokens)` from
`orchestrator.py`.  `input_text_data` stands for
`text_extraction(pdf_path)` (extraction is an external collaborator).
The dynamic grading criteria are generated once, before the model loop;
then each model is processed in input order.  After the loop the source
multiplies the `Total Cost` column of the result table by 1000 before
returning it, which the embedding applies to the `total_cost` field of
every row.  Returns the event trace and either the aborting exception or
`(result rows, evaluation_results narrative, score rubric list)`. -/
def final_evaluator (env : RunEnv) (input_text_data : String)
    (models : List String)
    (task_prompt : String := "Summarize this document in 2 sentences.")
    (max_tokens : String := "4096") :
    List RunEvent × Except RunError LoopResult :=
  let dyn := dynamic_grading_criteria env task_prompt
  let r := models_loop env input_text_data task_prompt dyn.1 dyn.2 models
  (.dynRubric task_prompt :: r.1,
   r.2.map fun lr =>
     (lr.1.map fun row => { row with total_cost := row.total_cost * 1000 },
      lr.2.1, lr.2.2))

/-! ### Theorems -/

/-- Rounding the exact value zero gives zero. -/
lemma pyRound_zero (nd : ℕ) : pyRound 0 nd = 0 := by
  unfold pyRound roundHalfEven
  norm_num

/-- The specification's pricing formula (§4.5): per-direction costs from a
rate that defaults to 0 for unknown models, the 6-decimal rounded total,
and the 6-decimal rounded total per 1000 invocations.  Written from the
spec's words, for comparison with `calculate_total_price`. -/
def spec_total_price (input_tokens output_tokens : ℤ) (model : String) :
    ℚ × ℚ × ℚ × ℚ :=
  let input_cost := pyRound ((input_tokens : ℚ) / 1000 * specInputRate model) 8
  let output_cost := pyRound ((output_tokens : ℚ) / 1000 * specOutputRate model) 8
  let total_cost := pyRound (input_cost + output_cost) 6
  (input_cost, output_cost, total_cost, pyRound (total_cost * 1000) 6)

/-- `calculate_input_price` agrees with the spec's formula: the unknown-model
branch returning the literal 0 equals rounding a cost computed from a zero
rate. -/
lemma input_price_spec (t : ℤ) (m : String) :
    calculate_input_price t m = pyRound ((t : ℚ) / 1000 * specInputRate m) 8 := by
  unfold calculate_input_price specInputRate
  cases h : model_input_token_prices.lookup m <;> simp [h, pyRound_zero]

/-- `calculate_output_price` agrees with the spec's formula. -/
lemma output_price_spec (t : ℤ) (m : String) :
    calculate_output_price t m = pyRound ((t : ℚ) / 1000 * specOutputRate m) 8 := by
  unfold calculate_output_price specOutputRate
  cases h : model_output_token_prices.lookup m <;> simp [h, pyRound_zero]

/-- Claim C2: `calculate_total_price` computes each per-direction cost as
`tokens/1000 * rate` rounded to 8 decimals, the total as
`round(input_cost + output_cost, 6)`, and the per-1000-invocation total as
`round(total_cost * 1000, 6)`; a model identifier absent from the price
tables is priced with both rates 0 (no error), so all four costs are zero
for any token counts; and
`price(1000, 0, "amazon.titan-text-lite-v1") = (0.0003, 0, 0.0003, 0.3)`. -/
theorem calculate_total_price_spec :
    (∀ (input_tokens output_tokens : ℤ) (model : String),
      calculate_total_price input_tokens output_tokens model =
        spec_total_price input_tokens output_tokens model) ∧
    (∀ (input_tokens output_tokens : ℤ) (model : String),
      model_input_token_prices.lookup model = none →
      model_output_token_prices.lookup model = none →
      calculate_total_price input_tokens output_tokens model = (0, 0, 0, 0)) ∧
    calculate_total_price 1000 0 "amazon.titan-text-lite-v1" =
      (0.0003, 0, 0.0003, 0.3) := by
  refine ⟨?_, ?_, ?_⟩
  · intro input_tokens output_tokens model
    unfold calculate_total_price spec_total_price
    rw [input_price_spec, output_price_spec]
  · intro input_tokens output_tokens model h1 h2
    unfold calculate_total_price calculate_input_price calculate_output_price
    rw [h1, h2]
    norm_num [pyRound_zero]
  · have h1 : model_input_token_prices.lookup "amazon.titan-text-lite-v1" =
        some 0.0003 := rfl
    have h2 : model_output_token_prices.lookup "amazon.titan-text-lite-v1" =
        some 0.0004 := rfl
    unfold calculate_total_price calculate_input_price calculate_output_price
    rw [h1, h2]
    norm_num [pyRound, roundHalfEven]

/-- Witness for C2: a model identifier in neither price table is priced at
zero in all four components, at concrete token counts. -/
theorem calculate_total_price_spec_witness :
    calculate_total_price 123 456 "not-a-model" = (0, 0, 0, 0) :=
  calculate_total_price_spec.2.1 123 456 "not-a-model" rfl rfl

/-- If `needle` occurs nowhere in `hay`, it is a prefix of no suffix of
`hay`. -/
lemma strIn_false_no_occurrence {needle hay : List Char}
    (h : strIn needle hay = false) :
    ∀ i, needle.isPrefixOf (hay.drop i) = false := by
  induction hay with
  | nil =>
    intro i
    cases needle with
    | nil => simp [strIn] at h
    | cons c cs => simp [List.isPrefixOf]
  | cons c rest ih =>
    unfold strIn at h
    rw [Bool.or_eq_false_iff] at h
    intro i
    cases i with
    | zero => exact h.1
    | succ j => exact ih h.2 j

/-- With the open delimiter absent, the pattern matches at no position. -/
lemma matchTagAt_none {xml tag : List Char}
    (h : strIn ('<' :: tag ++ ['>']) xml = false) (i : ℕ) :
    matchTagAt xml tag i = none := by
  unfold matchTagAt litAt
  rw [strIn_false_no_occurrence h i]
  simp

/-- With the open delimiter absent, the scan finds no matches. -/
lemma findTagMatches_nil {xml tag : List Char}
    (h : strIn ('<' :: tag ++ ['>']) xml = false) :
    ∀ fuel i, findTagMatches xml tag fuel i = [] := by
  intro fuel
  induction fuel with
  | zero => intro i; rfl
  | succ f ih =>
    intro i
    unfold findTagMatches
    rw [matchTagAt_none h i]
    by_cases hi : i ≤ xml.length <;> simp [hi, ih]

/-- Claim C3: `parse_xml` strips exactly the outermost delimiter pair
(`parse_xml("<score>3</score>", "score") = "3"`, and a differently-named
nested pair survives untouched), joins multiple top-level matches with a
single space, and returns `""` whenever the open delimiter of the
requested tag occurs nowhere in the input (it is a total function — no
exception escapes it). -/
theorem parse_xml_behavior :
    parse_xml "<score>3</score>" "score" = "3" ∧
    parse_xml "<thoughts>A <x>nested</x> B</thoughts>" "thoughts" =
      "A <x>nested</x> B" ∧
    parse_xml "<s>a</s><s>b</s>" "s" = "a b" ∧
    ∀ xml tag : String,
      strIn ('<' :: tag.data ++ ['>']) xml.data = false →
      parse_xml xml tag = "" := by
  refine ⟨by decide, by decide, by decide, ?_⟩
  intro xml tag h
  simp only [parse_xml, findTagMatches_nil h]

/-- Witness for C3: an input without the requested delimiter yields the
empty string. -/
theorem parse_xml_behavior_witness : parse_xml "hello world" "score" = "" :=
  parse_xml_behavior.2.2.2 "hello world" "score" (by decide)

/-- A well-formed judge reply with score 3. -/
def reply3 : String := "<score>3</score><thoughts>adequate</thoughts>"

/-- Nine well-formed judge replies, each scoring 3. -/
def baseReplies : NineReplies :=
  { accuracyReply := reply3
    completenessReply := reply3
    flowReply := reply3
    structureReply := reply3
    concisenessReply := reply3
    clarityReply := reply3
    objectivityReply := reply3
    toneReply := reply3
    taskReply := reply3 }

/-- A well-formed judge reply with score 5. -/
def reply5 : String := "<score>5</score><thoughts>strong</thoughts>"

/-- Nine judge replies scoring `[5,5,5,5,5,5,5,5,4]` (task dimension 4). -/
def c1Replies : NineReplies :=
  { accuracyReply := reply5
    completenessReply := reply5
    flowReply := reply5
    structureReply := reply5
    concisenessReply := reply5
    clarityReply := reply5
    objectivityReply := reply5
    toneReply := reply5
    taskReply := "<score>4</score><thoughts>minor deviation</thoughts>" }

/-- Nine judge replies in which the completeness reply has no score
delimiter, so its extracted score string is `""`. -/
def badReplies : NineReplies :=
  { baseReplies with completenessReply := "<thoughts>no score given</thoughts>" }

/-- A run environment whose adapters return fixed outputs with latency 1
second, with grading replies `baseReplies`. -/
def baseEnv : RunEnv :=
  { dyn_response := fun _ => ""
    invoke := fun _ _ =>
      { summary_invoke_response := "a summary"
        input_token_count := 10
        output_token_count := 5
        time_length := 1
        graders := baseReplies } }

/-- A run environment in which the measured `round(end - start, 2)` wall
clock is exactly 0. -/
def zeroLatencyEnv : RunEnv :=
  { dyn_response := fun _ => ""
    invoke := fun _ _ =>
      { summary_invoke_response := "a summary"
        input_token_count := 10
        output_token_count := 5
        time_length := 0
        graders := baseReplies } }

/-- Claim C1: whenever all nine extracted score strings convert to
integers, the aggregate score is exactly their sum divided by 9 — an exact
rational mean with no rounding — and the call returns the narrative and
rubric alongside it. -/
theorem eval_aggregate_mean
    (source_text_data model_name model_summary task crit scale : String)
    (r : NineReplies) (c a f st cs cl ob tn tk : ℤ)
    (hc : pyInt (model_execution r.completenessReply).1 = some c)
    (ha : pyInt (model_execution r.accuracyReply).1 = some a)
    (hf : pyInt (model_execution r.flowReply).1 = some f)
    (hst : pyInt (model_execution r.structureReply).1 = some st)
    (hcs : pyInt (model_execution r.concisenessReply).1 = some cs)
    (hcl : pyInt (model_execution r.clarityReply).1 = some cl)
    (hob : pyInt (model_execution r.objectivityReply).1 = some ob)
    (htn : pyInt (model_execution r.toneReply).1 = some tn)
    (htk : pyInt (model_execution r.taskReply).1 = some tk) :
    evaluate_model_output_orchestrator source_text_data model_name
        model_summary task crit scale r =
      some (((c + a + f + st + cs + cl + ob + tn + tk : ℤ) : ℚ) / 9,
            final_summary_text model_summary r,
            final_score_rubric model_name r) := by
  simp only [evaluate_model_output_orchestrator, hc, ha, hf, hst, hcs, hcl,
    hob, htn, htk, Option.some_bind]

/-- Witness for C1: scores `[5,5,5,5,5,5,5,5,4]` give aggregate `44/9`
(4.888...), exactly. -/
theorem eval_aggregate_mean_witness :
    evaluate_model_output_orchestrator "src" "model-a" "sum" "t" "crit"
        "scale" c1Replies =
      some ((44 : ℚ) / 9, final_summary_text "sum" c1Replies,
            final_score_rubric "model-a" c1Replies) := by
  have h := eval_aggregate_mean "src" "model-a" "sum" "t" "crit" "scale"
    c1Replies 5 5 5 5 5 5 5 5 4 rfl rfl rfl rfl rfl rfl rfl rfl rfl
  simpa using h

/-- Claim C4: if any one of the nine extracted score strings does not
convert to an integer (in particular the empty string left by an absent
score delimiter), the whole evaluation call fails — no default score, no
partial result. -/
theorem eval_unparseable_score_fails
    (source_text_data model_name model_summary task crit scale : String)
    (r : NineReplies)
    (h : pyInt (model_execution r.completenessReply).1 = none ∨
         pyInt (model_execution r.accuracyReply).1 = none ∨
         pyInt (model_execution r.flowReply).1 = none ∨
         pyInt (model_execution r.structureReply).1 = none ∨
         pyInt (model_execution r.concisenessReply).1 = none ∨
         pyInt (model_execution r.clarityReply).1 = none ∨
         pyInt (model_execution r.toneReply).1 = none ∨
         pyInt (model_execution r.objectivityReply).1 = none ∨
         pyInt (model_execution r.taskReply).1 = none) :
    evaluate_model_output_orchestrator source_text_data model_name
      model_summary task crit scale r = none := by
  rcases h with h | h | h | h | h | h | h | h | h <;>
    simp [evaluate_model_output_orchestrator, h]

/-- Witness for C4: a reply set whose completeness reply lacks the score
delimiter makes the whole call fail. -/
theorem eval_unparseable_score_fails_witness :
    evaluate_model_output_orchestrator "src" "m" "sum" "t" "crit" "scale"
      badReplies = none :=
  eval_unparseable_score_fails "src" "m" "sum" "t" "crit" "scale" badReplies
    (Or.inl rfl)

/-- The key list of the `final_score_rubric` dictionary, in insertion
order. -/
def rubric_key_names : List String :=
  ["model_name", "model_completeness_score", "model_accuracy_score",
   "model_flow_score", "model_structure_score", "model_conciseness_score",
   "model_clarity_score", "model_objectivity_score", "model_tone_score",
   "model_task_score"]

/-- The nine dimension names as the specification declares them. -/
def spec_dimension_names : List String :=
  ["completeness", "accuracy", "flow", "structure", "conciseness",
   "clarity", "objectivity", "tone", "task"]

/-- Counterexample to claim C8 as stated: on a successful concrete
evaluation the returned score map's keys are `model_name` plus the nine
`model_*_score` keys — ten keys, none of which is a bare dimension name —
so the key set does not equal the nine declared dimension names. -/
theorem rubric_keys_not_dimension_names :
    (evaluate_model_output_orchestrator "src" "m" "sum" "t" "crit" "scale"
        baseReplies).map (fun out => out.2.2.map Prod.fst) =
      some rubric_key_names ∧
    "completeness" ∈ spec_dimension_names ∧
    "completeness" ∉ rubric_key_names ∧
    "model_name" ∈ rubric_key_names ∧
    "model_name" ∉ spec_dimension_names ∧
    rubric_key_names.length = 10 := by
  refine ⟨by decide, by decide, by decide, by decide, by decide, by decide⟩

/-- Claim C8 (amended): on every successful evaluation — whatever the nine
judge replies are, hence independent of grading-call completion order,
which `asyncio.gather` hides by returning results in argument order — the
returned score map's key list is exactly `model_name` followed by the nine
`model_*_score` keys. -/
theorem rubric_keys_fixed
    (source_text_data model_name model_summary task crit scale : String)
    (r : NineReplies)
    (h : (evaluate_model_output_orchestrator source_text_data model_name
        model_summary task crit scale r).isSome = true) :
    (evaluate_model_output_orchestrator source_text_data model_name
        model_summary task crit scale r).map
      (fun out => out.2.2.map Prod.fst) = some rubric_key_names := by
  cases hE : evaluate_model_output_orchestrator source_text_data model_name
      model_summary task crit scale r with
  | none => rw [hE] at h; simp at h
  | some out =>
    unfold evaluate_model_output_orchestrator at hE
    simp only [Option.bind_eq_some] at hE
    obtain ⟨c, -, a, -, f, -, st, -, cs, -, cl, -, ob, -, tn, -, tk, -, hout⟩ := hE
    cases hout
    simp [final_score_rubric, rubric_key_names]

/-- Witness for C8 (amended): the fixed key list at a concrete successful
evaluation. -/
theorem rubric_keys_fixed_witness :
    (evaluate_model_output_orchestrator "s2" "m2" "sum2" "t2" "c2" "g2"
        baseReplies).map (fun out => out.2.2.map Prod.fst) =
      some rubric_key_names :=
  rubric_keys_fixed "s2" "m2" "sum2" "t2" "c2" "g2" baseReplies rfl

/-- A successful family block emits a row whose model field is the model
identifier it ran for. -/
lemma family_branch_ok_model {env : RunEnv}
    {input_text_data prompt crit scale model : String} {fam : Family}
    {row : RunRow} {txt : String} {rub : List (String × String)}
    (h : (family_branch env input_text_data prompt crit scale model fam).2 =
      .ok (row, txt, rub)) :
    row.model = model := by
  unfold family_branch at h
  dsimp only at h
  split at h
  · exact absurd h (by simp)
  · split at h
    · exact absurd h (by simp)
    · simp only [Except.ok.injEq, Prod.mk.injEq] at h
      obtain ⟨hrow, -, -⟩ := h
      rw [← hrow]

/-- On success, the family loop for one model emits one row per matching
family, in family order, each carrying that model identifier. -/
lemma families_loop_ok_models {env : RunEnv}
    {input_text_data prompt crit scale model : String} :
    ∀ (fams : List Family) (rows : List RunRow) (txt : String)
      (rubs : List (List (String × String))),
      (families_loop env input_text_data prompt crit scale model fams).2 =
        .ok (rows, txt, rubs) →
      rows.map (fun row => row.model) =
        (fams.filter fun fam => containsStr model (familyTag fam)).map
          (fun _ => model) := by
  intro fams
  induction fams with
  | nil =>
    intro rows txt rubs h
    simp only [families_loop, Except.ok.injEq, Prod.mk.injEq] at h
    obtain ⟨h1, -, -⟩ := h
    simp [← h1]
  | cons fam rest ih =>
    intro rows txt rubs h
    unfold families_loop at h
    by_cases hc : containsStr model (familyTag fam) = true
    · rw [if_pos hc] at h
      rcases hfb : family_branch env input_text_data prompt crit scale model
          fam with ⟨evs, res⟩
      rw [hfb] at h
      cases res with
      | error e => simp at h
      | ok triple =>
        obtain ⟨row, txt1, rub1⟩ := triple
        rcases hfl : families_loop env input_text_data prompt crit scale model
            rest with ⟨evs2, res2⟩
        rw [hfl] at h
        cases res2 with
        | error e => simp at h
        | ok t2 =>
          obtain ⟨rows2, txt2, rubs2⟩ := t2
          simp only [Except.ok.injEq, Prod.mk.injEq] at h
          obtain ⟨h1, -, -⟩ := h
          have hm : row.model = model :=
            family_branch_ok_model
              (show (family_branch env input_text_data prompt crit scale
                  model fam).2 = .ok (row, txt1, rub1) by rw [hfb])
          have ih2 := ih rows2 txt2 rubs2 (by rw [hfl])
          rw [← h1]
          simp [List.filter_cons, hc, hm, ih2]
    · rw [if_neg hc] at h
      have ih2 := ih rows txt rubs h
      rw [ih2]
      rw [Bool.not_eq_true] at hc
      simp [List.filter_cons, hc]

/-- On success, one model-loop iteration emits no rows for a skipped
identifier and one row per matching family otherwise. -/
lemma model_step_ok_models {env : RunEnv}
    {input_text_data prompt crit scale model : String}
    {rows : List RunRow} {txt : String}
    {rubs : List (List (String × String))}
    (h : (model_step env input_text_data prompt crit scale model).2 =
      .ok (rows, txt, rubs)) :
    rows.map (fun row => row.model) =
      if (containsStr model "stability" || containsStr model "embed") = true
      then []
      else (familyOrder.filter fun fam =>
        containsStr model (familyTag fam)).map (fun _ => model) := by
  unfold model_step at h
  by_cases hc : (containsStr model "stability" || containsStr model "embed")
      = true
  · rw [if_pos hc] at h
    simp only [Except.ok.injEq, Prod.mk.injEq] at h
    obtain ⟨h1, -, -⟩ := h
    rw [if_pos hc, ← h1]
    rfl
  · rw [if_neg hc] at h
    rw [if_neg hc]
    exact families_loop_ok_models _ rows txt rubs h

/-- On success, the model loop emits rows in input order: for each model,
no rows when skipped, else one per matching family. -/
lemma models_loop_ok_models {env : RunEnv}
    {input_text_data prompt crit scale : String} :
    ∀ (models : List String) (rows : List RunRow) (txt : String)
      (rubs : List (List (String × String))),
      (models_loop env input_text_data prompt crit scale models).2 =
        .ok (rows, txt, rubs) →
      rows.map (fun row => row.model) =
        models.flatMap (fun m =>
          if (containsStr m "stability" || containsStr m "embed") = true
          then []
          else (familyOrder.filter fun fam =>
            containsStr m (familyTag fam)).map (fun _ => m)) := by
  intro models
  induction models with
  | nil =>
    intro rows txt rubs h
    simp only [models_loop, Except.ok.injEq, Prod.mk.injEq] at h
    obtain ⟨h1, -, -⟩ := h
    simp [← h1]
  | cons m rest ih =>
    intro rows txt rubs h
    unfold models_loop at h
    rcases hms : model_step env input_text_data prompt crit scale m
      with ⟨evs, res⟩
    rw [hms] at h
    cases res with
    | error e => simp at h
    | ok t1 =>
      obtain ⟨rows1, txt1, rubs1⟩ := t1
      rcases hml : models_loop env input_text_data prompt crit scale rest
        with ⟨evs2, res2⟩
      rw [hml] at h
      cases res2 with
      | error e => simp at h
      | ok t2 =>
        obtain ⟨rows2, txt2, rubs2⟩ := t2
        simp only [Except.ok.injEq, Prod.mk.injEq] at h
        obtain ⟨h1, -, -⟩ := h
        have hm := model_step_ok_models
          (show (model_step env input_text_data prompt crit scale m).2 =
            .ok (rows1, txt1, rubs1) by rw [hms])
        have ih2 := ih rows2 txt2 rubs2 (by rw [hml])
        rw [← h1]
        simp only [List.flatMap_cons, List.map_append, hm, ih2]

/-- The model fields of the result rows of a successful run (`none` when
the run aborted with an exception). -/
def okRowModels (res : Except RunError LoopResult) : Option (List String) :=
  match res with
  | .ok (rows, _, _) => some (rows.map fun row => row.model)
  | .error _ => none

/-- Counterexample to claim C6 as stated: `"anthropic.mistral-x"` is not
skipped, yet two adapter families process it (the source's family `if`s
are independent substring tests, not exclusive dispatch), so the run
appends two result rows for this single identifier. -/
theorem two_rows_for_multi_family_model :
    (containsStr "anthropic.mistral-x" "stability" ||
      containsStr "anthropic.mistral-x" "embed") = false ∧
    okRowModels
        (final_evaluator baseEnv "doc" ["anthropic.mistral-x"] "t" "4096").2 =
      some ["anthropic.mistral-x", "anthropic.mistral-x"] := by
  exact ⟨by decide, rfl⟩

/-- Claim C6 (amended): on every successful run the result rows follow the
input model list order, with skipped identifiers (and identifiers matching
no family) contributing no row, and every other identifier contributing
one row per adapter family whose tag occurs in it — exactly one row when
exactly one family matches. -/
theorem one_row_per_matching_family
    (env : RunEnv) (input_text_data : String) (models : List String)
    (task_prompt max_tokens : String)
    (h : (final_evaluator env input_text_data models task_prompt
        max_tokens).2.isOk = true) :
    okRowModels
        (final_evaluator env input_text_data models task_prompt max_tokens).2 =
      some (models.flatMap fun m =>
        if (containsStr m "stability" || containsStr m "embed") = true then []
        else (familyOrder.filter fun fam =>
          containsStr m (familyTag fam)).map (fun _ => m)) := by
  simp only [final_evaluator] at h ⊢
  rcases hml : (models_loop env input_text_data task_prompt
      (dynamic_grading_criteria env task_prompt).1
      (dynamic_grading_criteria env task_prompt).2 models).2 with e | lr
  · rw [hml] at h
    simp [Except.map, Except.toBool] at h
  · obtain ⟨rows, txt, rubs⟩ := lr
    simp only [Except.map, okRowModels, List.map_map]
    have hcomp : ((fun row => row.model) ∘ fun row : RunRow =>
        { row with total_cost := row.total_cost * 1000 }) =
        fun row : RunRow => row.model := rfl
    rw [hcomp]
    exact congrArg some (models_loop_ok_models models rows txt rubs hml)

/-- Witness for C6 (amended): a run over one single-family identifier and
one identifier matching no family yields exactly one row, for the former. -/
theorem one_row_per_matching_family_witness :
    okRowModels
        (final_evaluator baseEnv "doc" ["anthropic.claude-v2", "unmatched"]
          "t" "4096").2 =
      some ["anthropic.claude-v2"] :=
  one_row_per_matching_family baseEnv "doc" ["anthropic.claude-v2", "unmatched"]
    "t" "4096" rfl

/-- A model list of which every member is skipped produces an empty loop
result. -/
lemma models_loop_all_skip {env : RunEnv}
    {input_text_data prompt crit scale : String} :
    ∀ models : List String,
      (∀ m ∈ models,
        (containsStr m "stability" || containsStr m "embed") = true) →
      models_loop env input_text_data prompt crit scale models =
        ([], .ok ([], "", [])) := by
  intro models
  induction models with
  | nil => intro _; rfl
  | cons m rest ih =>
    intro h
    unfold models_loop model_step
    rw [if_pos (h m (by simp))]
    rw [ih fun x hx => h x (by simp [hx])]
    rfl

/-- Claim C7: a run whose model list consists only of embedding-only or
non-text identifiers (the source's skip test: `"stability"` or `"embed"`
occurs in the identifier) produces zero result rows — the whole run result
is empty, and the only event is the rubric generation. -/
theorem embedding_only_models_no_rows
    (env : RunEnv) (input_text_data : String) (models : List String)
    (task_prompt max_tokens : String)
    (h : ∀ m ∈ models,
      (containsStr m "stability" || containsStr m "embed") = true) :
    final_evaluator env input_text_data models task_prompt max_tokens =
      ([.dynRubric task_prompt], .ok ([], "", [])) := by
  simp only [final_evaluator]
  rw [models_loop_all_skip models h]
  rfl

/-- Witness for C7: the run over `["amazon.titan-embed-text-v1"]` produces
zero rows. -/
theorem embedding_only_models_no_rows_witness :
    final_evaluator baseEnv "doc" ["amazon.titan-embed-text-v1"] "t" "4096" =
      ([.dynRubric "t"], .ok ([], "", [])) :=
  embedding_only_models_no_rows baseEnv "doc" ["amazon.titan-embed-text-v1"]
    "t" "4096" (by decide)

/-- Claim C10: the skip test is bare substring containment — any identifier
containing `"embed"` or `"stability"` anywhere is skipped entirely: its
loop iteration issues no network call (no event) and appends nothing, and
a run over just that identifier does nothing beyond generating the
rubric. -/
theorem substring_skip_no_call_no_row
    (env : RunEnv) (input_text_data prompt crit scale max_tokens model : String)
    (h : containsStr model "embed" = true ∨
      containsStr model "stability" = true) :
    model_step env input_text_data prompt crit scale model =
      ([], .ok ([], "", [])) ∧
    final_evaluator env input_text_data [model] prompt max_tokens =
      ([.dynRubric prompt], .ok ([], "", [])) := by
  have hskip : (containsStr model "stability" || containsStr model "embed")
      = true := by
    rcases h with h | h <;> simp [h]
  constructor
  · unfold model_step
    rw [if_pos hskip]
  · simp only [final_evaluator]
    rw [models_loop_all_skip [model] (by intro x hx; simp at hx; rw [hx]; exact hskip)]
    rfl

/-- Witness for C10: a Stability identifier is skipped with no event and no
row. -/
theorem substring_skip_no_call_no_row_witness :
    model_step baseEnv "doc" "t" "crit" "scale" "stability.sd3-large-v1:0" =
      ([], .ok ([], "", [])) ∧
    final_evaluator baseEnv "doc" ["stability.sd3-large-v1:0"] "t" "4096" =
      ([.dynRubric "t"], .ok ([], "", [])) :=
  substring_skip_no_call_no_row baseEnv "doc" "t" "crit" "scale" "4096"
    "stability.sd3-large-v1:0" (Or.inr rfl)

/-- Claim C5 (the code lacks the guard the claim asserts): with a measured
latency that rounds to exactly 0, the family block — which computes
`character_count / time_length` with no zero guard — raises
`ZeroDivisionError`, and the whole run aborts with that error. -/
theorem latency_zero_raises_division_error :
    family_branch zeroLatencyEnv "abcd" "t" "crit" "scale"
        "anthropic.claude-v2" .anthropic =
      ([.invoke .anthropic "anthropic.claude-v2"], .error .zeroDivisionError) ∧
    (final_evaluator zeroLatencyEnv "abcd" ["anthropic.claude-v2"] "t"
        "4096").2 = .error .zeroDivisionError :=
  ⟨rfl, rfl⟩

/-- Whether an event is the dynamic-rubric generation. -/
def isDynRubricEvent : RunEvent → Bool
  | .dynRubric _ => true
  | _ => false

/-- A family block's trace is its vendor invocation, followed by its
evaluation call (carrying the criteria and scale it was handed) unless the
division raised first. -/
lemma family_branch_trace (env : RunEnv)
    (input_text_data prompt crit scale model : String) (fam : Family) :
    (family_branch env input_text_data prompt crit scale model fam).1 =
      [.invoke fam model] ∨
    (family_branch env input_text_data prompt crit scale model fam).1 =
      [.invoke fam model, .evalCall model crit scale] := by
  unfold family_branch
  dsimp only
  split
  · exact Or.inl rfl
  · split
    · exact Or.inr rfl
    · exact Or.inr rfl

/-- Every event of the family loop is a vendor invocation or an evaluation
call carrying exactly the criteria and scale the loop was handed; none is
a rubric generation. -/
lemma families_loop_trace (env : RunEnv)
    (input_text_data prompt crit scale model : String) :
    ∀ (fams : List Family) (e : RunEvent),
      e ∈ (families_loop env input_text_data prompt crit scale model fams).1 →
      isDynRubricEvent e = false ∧
      ∀ m' c' s', e = RunEvent.evalCall m' c' s' → c' = crit ∧ s' = scale := by
  intro fams
  induction fams with
  | nil => intro e he; simp [families_loop] at he
  | cons fam rest ih =>
    intro e he
    unfold families_loop at he
    by_cases hc : containsStr model (familyTag fam) = true
    · rw [if_pos hc] at he
      rcases hfb : family_branch env input_text_data prompt crit scale model
          fam with ⟨evs, res⟩
      rw [hfb] at he
      have hevs : e ∈ evs → isDynRubricEvent e = false ∧
          ∀ m' c' s', e = RunEvent.evalCall m' c' s' →
            c' = crit ∧ s' = scale := by
        intro hin
        rcases family_branch_trace env input_text_data prompt crit scale
            model fam with ht | ht <;> rw [hfb] at ht <;> dsimp at ht <;>
          rw [ht] at hin
        · simp at hin
          rw [hin]
          exact ⟨rfl, by intro m' c' s' hx; cases hx⟩
        · rcases List.mem_cons.mp hin with hx | hx
          · rw [hx]
            exact ⟨rfl, by intro m' c' s' hy; cases hy⟩
          · simp at hx
            rw [hx]
            refine ⟨rfl, ?_⟩
            intro m' c' s' hy
            cases hy
            exact ⟨rfl, rfl⟩
      cases res with
      | error err =>
        exact hevs he
      | ok triple =>
        obtain ⟨row, txt1, rub1⟩ := triple
        rcases hfl : families_loop env input_text_data prompt crit scale model
            rest with ⟨evs2, res2⟩
        rw [hfl] at he
        cases res2 with
        | error err =>
          rcases List.mem_append.mp he with hx | hx
          · exact hevs hx
          · have := ih e
            rw [hfl] at this
            exact this hx
        | ok t2 =>
          obtain ⟨rows2, txt2, rubs2⟩ := t2
          rcases List.mem_append.mp he with hx | hx
          · exact hevs hx
          · have := ih e
            rw [hfl] at this
            exact this hx
    · rw [if_neg hc] at he
      exact ih e he

/-- Every event of the model loop is a vendor invocation or an evaluation
call carrying exactly the criteria and scale the loop was handed. -/
lemma models_loop_trace (env : RunEnv)
    (input_text_data prompt crit scale : String) :
    ∀ (models : List String) (e : RunEvent),
      e ∈ (models_loop env input_text_data prompt crit scale models).1 →
      isDynRubricEvent e = false ∧
      ∀ m' c' s', e = RunEvent.evalCall m' c' s' → c' = crit ∧ s' = scale := by
  intro models
  induction models with
  | nil => intro e he; simp [models_loop] at he
  | cons m rest ih =>
    intro e he
    unfold models_loop at he
    rcases hms : model_step env input_text_data prompt crit scale m
      with ⟨evs, res⟩
    rw [hms] at he
    have hevs : e ∈ evs → isDynRubricEvent e = false ∧
        ∀ m' c' s', e = RunEvent.evalCall m' c' s' →
          c' = crit ∧ s' = scale := by
      intro hin
      unfold model_step at hms
      by_cases hc : (containsStr m "stability" || containsStr m "embed")
          = true
      · rw [if_pos hc] at hms
        cases hms
        simp at hin
      · rw [if_neg hc] at hms
        have := families_loop_trace env input_text_data prompt crit scale m
          familyOrder e
        rw [hms] at this
        exact this hin
    cases res with
    | error err => exact hevs he
    | ok t1 =>
      obtain ⟨rows1, txt1, rubs1⟩ := t1
      rcases hml : models_loop env input_text_data prompt crit scale rest
        with ⟨evs2, res2⟩
      rw [hml] at he
      cases res2 with
      | error err =>
        rcases List.mem_append.mp he with hx | hx
        · exact hevs hx
        · have := ih e
          rw [hml] at this
          exact this hx
      | ok t2 =>
        obtain ⟨rows2, txt2, rubs2⟩ := t2
        rcases List.mem_append.mp he with hx | hx
        · exact hevs hx
        · have := ih e
          rw [hml] at this
          exact this hx

/-- Claim C9: in every run, the event trace starts with the single
dynamic-rubric generation — it happens exactly once, before any candidate
model is invoked — and every evaluation call in the run receives exactly
the criteria and scale pair that the one rubric generation produced. -/
theorem dynamic_rubric_once_before_models
    (env : RunEnv) (input_text_data : String) (models : List String)
    (task_prompt max_tokens : String) :
    (final_evaluator env input_text_data models task_prompt
        max_tokens).1.head? = some (.dynRubric task_prompt) ∧
    ((final_evaluator env input_text_data models task_prompt
        max_tokens).1.countP isDynRubricEvent) = 1 ∧
    ∀ model crit scale,
      RunEvent.evalCall model crit scale ∈
        (final_evaluator env input_text_data models task_prompt
          max_tokens).1 →
      (crit, scale) = dynamic_grading_criteria env task_prompt := by
  simp only [final_evaluator]
  refine ⟨rfl, ?_, ?_⟩
  · rw [List.countP_cons]
    have h0 : (models_loop env input_text_data task_prompt
        (dynamic_grading_criteria env task_prompt).1
        (dynamic_grading_criteria env task_prompt).2 models).1.countP
          isDynRubricEvent = 0 := by
      rw [List.countP_eq_zero]
      intro e he
      have := models_loop_trace env input_text_data task_prompt
        (dynamic_grading_criteria env task_prompt).1
        (dynamic_grading_criteria env task_prompt).2 models e he
      simp [this.1]
    rw [h0]
    rfl
  · intro model crit scale hmem
    rcases List.mem_cons.mp hmem with heq | hmem'
    · cases heq
    · have := (models_loop_trace env input_text_data task_prompt
        (dynamic_grading_criteria env task_prompt).1
        (dynamic_grading_criteria env task_prompt).2 models _ hmem').2
        model crit scale rfl
      rw [this.1, this.2]

/-- Witness for C9: on a concrete run the trace head is the rubric
generation, it is the only one, and the criteria pair received by the one
evaluation call is the rubric generation's output. -/
theorem dynamic_rubric_once_before_models_witness :
    (final_evaluator baseEnv "doc" ["anthropic.claude-v2"] "t"
        "4096").1.head? = some (.dynRubric "t") ∧
    ((final_evaluator baseEnv "doc" ["anthropic.claude-v2"] "t"
        "4096").1.countP isDynRubricEvent) = 1 ∧
    (("" : String), ("" : String)) = dynamic_grading_criteria baseEnv "t" := by
  have h := dynamic_rubric_once_before_models baseEnv "doc"
    ["anthropic.claude-v2"] "t" "4096"
  exact ⟨h.1, h.2.1, h.2.2 "anthropic.claude-v2" "" "" (by decide)⟩
